import Mathlib

/-!
Verification development for the agentic token-forger repository.

The repository is a set of Python agents (RiskAnalyzerAgent,
LiquidityOptimizerAgent, LaunchCoordinatorAgent) plus a rule-based ML risk
model (ml-models/risk_scoring/model.py).  This file gives a shallow
embedding of the decision functions those agents implement and proves
properties of them.

Conventions of the embedding:
* Python dicts whose keys may be absent are embedded as structures of
  Option-typed fields; `d.get(k, default)` becomes `field.getD default`,
  and `d.get(k) is not None` / `k in d` becomes `field.isSome`.
* Python floats are embedded as rationals (every literal appearing in the
  scoring code is dyadic, and the code only adds and subtracts them, so
  the rational arithmetic is exact).
* `try ... except` around a MeTTa oracle call is embedded by a Boolean
  parameter `ok`: `ok = true` is the branch where `metta.run` (and the
  rest of the try body) succeeds, `ok = false` selects the code of the
  `except` handler.
-/

/-- On-chain data dict consumed by `analyze_token_risk_with_metta`
(RiskAnalyzerAgent.py); every key the function reads, each possibly
absent. -/
structure OnChainData where
  liquidity_lock_duration : Option ℚ
  team_verified : Option Bool
  vesting_enabled : Option Bool
  contract_verified : Option Bool
  top_holder_percentage : Option ℚ
  graduation_time_hours : Option ℚ
deriving DecidableEq, Repr

/-- `agent_state["alert_thresholds"]["holder_concentration"]` in
RiskAnalyzerAgent.py (30.0). -/
def holderConcentrationThreshold : ℚ := 30

/-- Result dict of `analyze_token_risk_with_metta`. -/
structure RiskResult where
  risk_score : ℚ
  risk_level : String
  red_flags : List String
  confidence : ℚ
  fraud_probability : ℚ
  recommendation : String
deriving DecidableEq, Repr

/-- Renders a nonnegative rational with one decimal digit, standing in for
the Python f-string formatting `:.1f` used in the holder-concentration
red flag (rounding to nearest tenth; ties away from zero). -/
def pctString (q : ℚ) : String :=
  let n : ℤ := ⌊q * 10 + 1/2⌋
  toString (n / 10) ++ "." ++ toString (n % 10)

/-- `get_risk_recommendation` from RiskAnalyzerAgent.py. The red-flag list
parameter is accepted and ignored exactly as in the source. -/
def get_risk_recommendation (risk_score : ℚ) (_red_flags : List String) : String :=
  if risk_score < 3 then
    "🚫 HIGH RISK - Do not invest. Multiple fraud indicators detected."
  else if risk_score < 5 then
    "⚠️ MEDIUM-HIGH RISK - Proceed with extreme caution. Consider waiting for more data."
  else if risk_score < 7 then
    "⚡ MEDIUM RISK - Acceptable for experienced investors. Monitor closely."
  else if risk_score < 17/2 then
    "✅ LOW-MEDIUM RISK - Generally safe. Standard due diligence recommended."
  else
    "💎 LOW RISK - Strong safety indicators. Good investment candidate."

/-- The running risk score of `analyze_token_risk_with_metta` after all six
deductions, before the final `max(0, ...)` clamp: base 7.5 minus 2.0 when
the liquidity lock is under 30 days, 1.5 when the team is unverified, 1.0
when vesting is absent, 1.0 when the contract is unverified, 2.0 when the
top-holder percentage exceeds the 30 threshold, and 1.5 when graduation
took under 24 hours (default 1000). -/
def analyzeTokenRiskScoreRaw (d : OnChainData) : ℚ :=
  15/2
    - (if d.liquidity_lock_duration.getD 0 < 30 then 2 else 0)
    - (if d.team_verified.getD false then 0 else 3/2)
    - (if d.vesting_enabled.getD false then 0 else 1)
    - (if d.contract_verified.getD false then 0 else 1)
    - (if holderConcentrationThreshold < d.top_holder_percentage.getD 0 then 2 else 0)
    - (if d.graduation_time_hours.getD 1000 < 24 then 3/2 else 0)

/-- The `red_flags` list accumulated by `analyze_token_risk_with_metta`,
one entry per fired deduction, in evaluation order. -/
def analyzeTokenRiskRedFlags (d : OnChainData) : List String :=
  (if d.liquidity_lock_duration.getD 0 < 30 then
    ["⚠️ No liquidity lock (30+ days recommended)"] else [])
  ++ (if d.team_verified.getD false then [] else ["⚠️ Anonymous team"])
  ++ (if d.vesting_enabled.getD false then [] else ["⚠️ No vesting schedule"])
  ++ (if d.contract_verified.getD false then [] else ["⚠️ Contract not verified"])
  ++ (if holderConcentrationThreshold < d.top_holder_percentage.getD 0 then
    ["🚨 High holder concentration: " ++ pctString (d.top_holder_percentage.getD 0) ++ "%"]
    else [])
  ++ (if d.graduation_time_hours.getD 1000 < 24 then
    ["🚨 Rapid graduation (<24h) - possible pump & dump"] else [])

/-- `data_completeness` numerator of `analyze_token_risk_with_metta`: how
many of the five checked keys are present (`is not None`). -/
def dataCompletenessCount (d : OnChainData) : ℕ :=
  (if d.liquidity_lock_duration.isSome then 1 else 0)
  + (if d.team_verified.isSome then 1 else 0)
  + (if d.vesting_enabled.isSome then 1 else 0)
  + (if d.contract_verified.isSome then 1 else 0)
  + (if d.top_holder_percentage.isSome then 1 else 0)

/-- `confidence = data_completeness * 0.9 + 0.1` in
`analyze_token_risk_with_metta`. -/
def analyzeTokenRiskConfidence (d : OnChainData) : ℚ :=
  (dataCompletenessCount d : ℚ) / 5 * (9/10) + 1/10

/-- The dict returned by the `except` handler of
`analyze_token_risk_with_metta` when the MeTTa query raises. -/
def analyzeTokenRiskFallback : RiskResult :=
  { risk_score := 5
    risk_level := "MEDIUM"
    red_flags := ["Unable to complete analysis"]
    confidence := 1/2
    fraud_probability := 1/2
    recommendation := "Proceed with caution - analysis incomplete" }

/-- `analyze_token_risk_with_metta` from RiskAnalyzerAgent.py.  `ok = true`
is the branch where `metta.run` succeeds; `ok = false` is the `except`
branch.  In the success branch the returned score is `max(0, risk_score)`,
while `risk_level`, `fraud_probability` and the recommendation are computed
from the unclamped running score, exactly as in the source. -/
def analyzeTokenRiskWithMetta (ok : Bool) (d : OnChainData) : RiskResult :=
  if ok then
    let s := analyzeTokenRiskScoreRaw d
    { risk_score := max 0 s
      risk_level := if s < 5 then "HIGH" else if s < 7 then "MEDIUM" else "LOW"
      red_flags := analyzeTokenRiskRedFlags d
      confidence := analyzeTokenRiskConfidence d
      fraud_probability := max 0 (min 1 ((10 - s) / 10))
      recommendation := get_risk_recommendation s (analyzeTokenRiskRedFlags d) }
  else analyzeTokenRiskFallback

example :
    (analyzeTokenRiskWithMetta true
      { liquidity_lock_duration := some 90, team_verified := some true,
        vesting_enabled := some true, contract_verified := some true,
        top_holder_percentage := some (25/2), graduation_time_hours := some 72 }).risk_score
      = 15/2 := by
  norm_num [analyzeTokenRiskWithMetta, analyzeTokenRiskScoreRaw, holderConcentrationThreshold]

example :
    (analyzeTokenRiskWithMetta true
      { liquidity_lock_duration := some 10, team_verified := some false,
        vesting_enabled := some false, contract_verified := some false,
        top_holder_percentage := some 35, graduation_time_hours := none }).risk_score
      = 0 := by
  norm_num [analyzeTokenRiskWithMetta, analyzeTokenRiskScoreRaw, holderConcentrationThreshold]

/-! ## RiskScoringModel (ml-models/risk_scoring/model.py) -/

/-- Token data dict consumed by `RiskScoringModel.predict`; every key the
rule-based scoring reads or tests for membership, each possibly absent. -/
structure TokenData where
  liquidity_locked : Option Bool
  liquidity_lock_duration : Option ℚ
  team_verified : Option Bool
  contract_verified : Option Bool
  vesting_enabled : Option Bool
  top_holder_percentage : Option ℚ
  graduation_time_hours : Option ℚ
  holder_count : Option ℚ
deriving DecidableEq, Repr

/-- Result dict of `RiskScoringModel.predict` (the `timestamp` field, a
wall-clock string, is omitted). -/
structure PredictResult where
  risk_score : ℚ
  rug_pull_probability : ℚ
  risk_level : String
  red_flags : List String
  confidence : ℚ
  recommendation : String
deriving DecidableEq, Repr

namespace RiskScoringModel

/-- `RiskScoringModel._get_recommendation`. -/
def getRecommendation (risk_score : ℚ) (_red_flags : List String) : String :=
  if risk_score < 3 then
    "🚫 HIGH RISK - Do not invest. Multiple fraud indicators detected."
  else if risk_score < 5 then
    "⚠️ MEDIUM-HIGH RISK - Proceed with extreme caution."
  else if risk_score < 7 then
    "⚡ MEDIUM RISK - Acceptable for experienced investors."
  else if risk_score < 17/2 then
    "✅ LOW-MEDIUM RISK - Generally safe with standard due diligence."
  else
    "💎 LOW RISK - Strong safety indicators."

/-- The running risk score of `RiskScoringModel.predict` after all
deductions, before the `max(0, min(10, ...))` clamp: base 7.5; minus 2.5
when liquidity is not locked, else 1.5 when the lock is under 30 days;
minus 1.5 for an unverified team; 1.0 for an unverified contract; 1.0 for
absent vesting; 2.0 when the top-holder percentage exceeds 30, else 1.0
when it exceeds 20; 1.5 when graduation took under 24 hours
(default 168). -/
def scoreRaw (d : TokenData) : ℚ :=
  15/2
    - (if ¬ d.liquidity_locked.getD false then 5/2
       else if d.liquidity_lock_duration.getD 0 < 30 then 3/2 else 0)
    - (if d.team_verified.getD false then 0 else 3/2)
    - (if d.contract_verified.getD false then 0 else 1)
    - (if d.vesting_enabled.getD false then 0 else 1)
    - (if 30 < d.top_holder_percentage.getD 0 then 2
       else if 20 < d.top_holder_percentage.getD 0 then 1 else 0)
    - (if d.graduation_time_hours.getD 168 < 24 then 3/2 else 0)

/-- Python `str()` of an optional numeric dict value, standing in for the
interpolation in the short-lock red flag (`None` when the key is
absent). -/
def optValueString (o : Option ℚ) : String :=
  match o with
  | none => "None"
  | some q => toString q.num ++ (if q.den = 1 then "" else "/" ++ toString q.den)

/-- The `red_flags` list accumulated by `RiskScoringModel.predict`, one
entry per fired deduction, in evaluation order. -/
def redFlags (d : TokenData) : List String :=
  (if ¬ d.liquidity_locked.getD false then ["No liquidity lock"]
   else if d.liquidity_lock_duration.getD 0 < 30 then
     ["Short lock duration: " ++ optValueString d.liquidity_lock_duration ++ " days"]
   else [])
  ++ (if d.team_verified.getD false then [] else ["Anonymous team"])
  ++ (if d.contract_verified.getD false then [] else ["Contract not verified"])
  ++ (if d.vesting_enabled.getD false then [] else ["No vesting schedule"])
  ++ (if 30 < d.top_holder_percentage.getD 0 then
       ["High holder concentration: " ++ pctString (d.top_holder_percentage.getD 0) ++ "%"]
     else if 20 < d.top_holder_percentage.getD 0 then
       ["Moderate holder concentration: " ++ pctString (d.top_holder_percentage.getD 0) ++ "%"]
     else [])
  ++ (if d.graduation_time_hours.getD 168 < 24 then ["Rapid graduation (<24h)"] else [])

/-- `data_completeness` numerator of `RiskScoringModel.predict`: how many
of the five listed keys are members of the dict. -/
def completenessCount (d : TokenData) : ℕ :=
  (if d.liquidity_locked.isSome then 1 else 0)
  + (if d.team_verified.isSome then 1 else 0)
  + (if d.contract_verified.isSome then 1 else 0)
  + (if d.vesting_enabled.isSome then 1 else 0)
  + (if d.holder_count.isSome then 1 else 0)

/-- `RiskScoringModel.predict` (ml-models/risk_scoring/model.py).  The
feature vector built by `prepare_features` is computed and never used by
the rule-based demo scoring, so it is omitted here.  The returned score is
clamped to `[0, 10]`, and the level, rug-pull probability and
recommendation are all computed from the clamped score. -/
def predict (d : TokenData) : PredictResult :=
  let s := max 0 (min 10 (scoreRaw d))
  { risk_score := s
    rug_pull_probability := max 0 (min 1 ((10 - s) / 10))
    risk_level := if s < 4 then "HIGH" else if s < 7 then "MEDIUM" else "LOW"
    red_flags := redFlags d
    confidence := 3/5 + ((completenessCount d : ℚ) / 5) * (7/20)
    recommendation := getRecommendation s (redFlags d) }

end RiskScoringModel

example :
    (RiskScoringModel.predict
      { liquidity_locked := some true, liquidity_lock_duration := some 90,
        team_verified := some true, contract_verified := some true,
        vesting_enabled := some true, top_holder_percentage := some (25/2),
        graduation_time_hours := some 72, holder_count := some 1250 }).risk_score
      = 15/2 := by
  norm_num [RiskScoringModel.predict, RiskScoringModel.scoreRaw]

/-! ## LiquidityOptimizerAgent (LiquidityOptimizerAgent.py) -/

/-- The parsed optimal-range dict built inside
`analyze_rebalancing_opportunity_with_metta` from the MeTTa result. -/
structure OptimalRange where
  lower : ℚ
  upper : ℚ
  confidence : ℚ
  expected_apr_improvement : ℚ
  reasoning : String
deriving DecidableEq, Repr

/-- The demo values the source assigns to `optimal_range` in the success
branch (`0.95`, `1.05`, `0.89`, `12.5`). -/
def optimalRangeDemo : OptimalRange :=
  { lower := 19/20
    upper := 21/20
    confidence := 89/100
    expected_apr_improvement := 25/2
    reasoning := "Based on historical volatility and volume patterns" }

/-- The `should_rebalance` conjunction of
`analyze_rebalancing_opportunity_with_metta`:
`expected_apr_improvement > 5.0 and confidence > 0.80 and days >= 1`,
where `days` is `(datetime.utcnow() - position.last_rebalance).days`. -/
def shouldRebalance (optimal_range : OptimalRange) (days : ℤ) : Bool :=
  decide (5 < optimal_range.expected_apr_improvement)
    && decide (4/5 < optimal_range.confidence)
    && decide (1 ≤ days)

/-- Result dict of `analyze_rebalancing_opportunity_with_metta`.  The
success branch fills every field but `error`; the `except` branch returns
only `should_rebalance = False` and `error`. -/
structure RebalanceAnalysis where
  should_rebalance : Bool
  optimal_range : Option OptimalRange
  current_efficiency : Option ℚ
  estimated_gas_cost : Option ℚ
  estimated_profit : Option ℚ
  error : Option String
deriving DecidableEq, Repr

/-- `analyze_rebalancing_opportunity_with_metta` from
LiquidityOptimizerAgent.py.  `ok = false` selects the `except` branch and
`e` stands for `str(e)` there.  `last_rebalance_days_ago` is
`(datetime.utcnow() - position.last_rebalance).days`; it is `none` when
`position.last_rebalance` is `None`, in which case the subtraction raises
`TypeError` inside the `try` and the `except` branch also runs.
`calculate_capital_efficiency` returns the mock `0.75` and the gas cost is
the literal `0.001`. -/
def analyzeRebalancingOpportunityWithMetta (ok : Bool) (e : String)
    (liquidity_amount : ℚ) (last_rebalance_days_ago : Option ℤ) : RebalanceAnalysis :=
  match ok, last_rebalance_days_ago with
  | true, some days =>
    { should_rebalance := shouldRebalance optimalRangeDemo days
      optimal_range := some optimalRangeDemo
      current_efficiency := some (3/4)
      estimated_gas_cost := some (1/1000)
      estimated_profit := some (optimalRangeDemo.expected_apr_improvement * liquidity_amount * (1/100))
      error := none }
  | _, _ =>
    { should_rebalance := false
      optimal_range := none
      current_efficiency := none
      estimated_gas_cost := none
      estimated_profit := none
      error := some e }

/-- One entry of `agent_state["monitored_positions"]` in
LiquidityOptimizerAgent.py. -/
structure PositionData where
  pool_address : String
  token_a : String
  token_b : String
  added_at : ℚ
  last_check : Option ℚ
deriving DecidableEq, Repr

/-- The `monitor_positions` interval handler of LiquidityOptimizerAgent.py,
restricted to which positions it re-evaluates and how it updates the
store: the `for` loop runs its body for every entry of
`monitored_positions` in insertion order — there is no condition on
`last_check`, which is written at the end of each iteration and never read
by the loop.  Returns the list of evaluated position ids and the updated
store. -/
def monitorPositionsTick (now : ℚ) (monitored : List (String × PositionData)) :
    List String × List (String × PositionData) :=
  (monitored.map fun p => p.1,
   monitored.map fun p => (p.1, { p.2 with last_check := some now }))

/-- Modelled from the spec: the MonitorScheduler contract (§4.2 with §3),
which this file compares `monitor_positions` against — `tick()` produces
the ids due for re-evaluation in insertion order, skipping entities whose
last-evaluation timestamp is more recent than a configured minimum
cadence. -/
def monitorTickSpec (now cadence : ℚ) (monitored : List (String × PositionData)) :
    List String :=
  (monitored.filter fun p =>
    match p.2.last_check with
    | some t => decide (cadence ≤ now - t)
    | none => true).map fun p => p.1

/-! ## Rug-pull detection (RiskAnalyzerAgent.py) -/

/-- `agent_state["alert_thresholds"]["rapid_sell_off"]` in
RiskAnalyzerAgent.py (20.0). -/
def rapidSellOffThreshold : ℚ := 20

/-- The `indicators` sub-dict of a successful `detect_rug_pull_pattern`
result. -/
structure RugPullIndicators where
  rapid_price_drop : Bool
  volume_spike_before_drop : Bool
  price_drop_percentage : ℚ
deriving DecidableEq, Repr

/-- Result dict of `detect_rug_pull_pattern`; the short-history and
`except` returns carry only the first two fields. -/
structure RugPullResult where
  rug_pull_detected : Bool
  confidence : ℚ
  indicators : Option RugPullIndicators
  action : Option String
deriving DecidableEq, Repr

/-- `detect_rug_pull_pattern` from RiskAnalyzerAgent.py.  Returns `none`
when the function raises instead of returning: the price-drop division is
computed before the `try` block, so a zero leading price raises an
uncaught `ZeroDivisionError`.  `price_history[-10:]` is
`drop (length - 10)`; `volume_spike` is the literal `False` in the source
("Would analyze actual volume data"), and detection requires it, so
`rug_pull_detected = rapid_sell_off and volume_spike` is always false. -/
def detect_rug_pull_pattern (ok : Bool) (price_history : List ℚ) : Option RugPullResult :=
  if price_history.length < 5 then
    some { rug_pull_detected := false, confidence := 0, indicators := none, action := none }
  else
    let recent_prices := price_history.drop (price_history.length - 10)
    let p0 := recent_prices.headD 0
    if p0 = 0 then none
    else
      let price_drop := (p0 - recent_prices.getLastD 0) / p0 * 100
      let rapid_sell_off := decide (rapidSellOffThreshold < price_drop)
      let volume_spike := false
      if ok then
        some { rug_pull_detected := rapid_sell_off && volume_spike
               confidence := if rapid_sell_off && volume_spike then 17/20 else 19/20
               indicators := some { rapid_price_drop := rapid_sell_off
                                    volume_spike_before_drop := volume_spike
                                    price_drop_percentage := price_drop }
               action := some (if rapid_sell_off && volume_spike then "ALERT_USERS"
                               else "CONTINUE_MONITORING") }
      else some { rug_pull_detected := false, confidence := 0, indicators := none, action := none }

/-- The increment `agent_state["fraud_patterns_detected"] += 1` performed
by `detect_rug_pull_pattern` exactly when it detects a rug pull. -/
def detectRugPullFraudIncrement (ok : Bool) (price_history : List ℚ) : ℕ :=
  match detect_rug_pull_pattern ok price_history with
  | some r => if r.rug_pull_detected then 1 else 0
  | none => 0

/-- One entry of `agent_state["monitored_tokens"]` in
RiskAnalyzerAgent.py. -/
structure TokenMonitorData where
  added_at : ℚ
deriving DecidableEq, Repr

/-- `price_history` of the mock `fetch_on_chain_data`
(`[1.0, 1.05, 1.10, 1.08, 1.12]`). -/
def mockPriceHistory : List ℚ := [1, 21/20, 11/10, 27/25, 28/25]

/-- The `monitor_active_tokens` interval handler of RiskAnalyzerAgent.py,
restricted to which tokens it re-evaluates: the `for` loop runs its body
for every entry of `monitored_tokens` in insertion order, with no
condition on any timestamp. -/
def monitorActiveTokensEvaluated (tokens : List (String × TokenMonitorData)) : List String :=
  tokens.map fun t => t.1

/-- The token addresses for which `monitor_active_tokens` calls
`send_rug_pull_alert` on one tick: those whose rug-pull analysis (over the
mock on-chain price history) reports `rug_pull_detected`. -/
def monitorActiveTokensRugAlerts (ok : Bool)
    (tokens : List (String × TokenMonitorData)) : List String :=
  (tokens.filter fun _ =>
    match detect_rug_pull_pattern ok mockPriceHistory with
    | some r => r.rug_pull_detected
    | none => false).map fun t => t.1

/-! ## LaunchCoordinatorAgent (LaunchCoordinatorAgent.py) -/

/-- The names bound in the local scope of `handle_launch_request`: its
parameters `ctx`, `sender`, `text` and every name assigned in its body.
`msg` is not among them. -/
def handleLaunchRequestLocalNames : List String :=
  ["ctx", "sender", "text", "token_params", "optimal_strategy",
   "risk_analysis", "strategy_message", "response"]

/-- The module-level names of LaunchCoordinatorAgent.py: the imports and
every top-level assignment, class and function definition (including `f`,
bound by the `with open(...) as f` block).  `msg` is not among them. -/
def launchCoordinatorModuleNames : List String :=
  ["Agent", "Context", "Protocol", "Model", "Optional", "Dict", "Any",
   "fund_agent_if_low", "ChatMessage", "ChatAcknowledgement", "TextContent",
   "chat_protocol_spec", "MeTTa", "GroundedAtom", "datetime", "uuid4",
   "asyncio", "json", "os", "launch_coordinator", "metta",
   "KNOWLEDGE_BASE_PATH", "f", "chat_proto", "SolanaExecutionResult",
   "agent_state", "create_text_chat", "query_metta_for_launch_strategy",
   "analyze_risk_with_metta", "handle_chat_message", "handle_launch_request",
   "handle_status_request", "handle_risk_analysis_request",
   "handle_solana_execution_result"]

/-- The Python builtins the module refers to. -/
def pythonBuiltinNames : List String :=
  ["print", "len", "str", "open", "isinstance", "chr", "__name__"]

/-- Python name resolution as seen from the body of
`handle_launch_request`: local scope, then module globals, then
builtins. -/
def nameInScopeAtLaunchRequest (n : String) : Bool :=
  handleLaunchRequestLocalNames.contains n
    || launchCoordinatorModuleNames.contains n
    || pythonBuiltinNames.contains n

/-- Resolution of a name to a (placeholder) value; `none` means the
interpreter raises `NameError` at the use site. -/
def resolveAtLaunchRequest (n : String) : Option String :=
  if nameInScopeAtLaunchRequest n then some n else none

/-- One entry of `agent_state["active_launches"]` in
LaunchCoordinatorAgent.py (the launch and strategy payloads are elided;
the claim only concerns whether an entry is added). -/
structure LaunchEntry where
  status : String
  timestamp : ℚ
deriving DecidableEq, Repr

/-- The LaunchCoordinator state touched by `handle_launch_request`: the
chat messages sent so far and `agent_state["active_launches"]`. -/
structure CoordState where
  sent : List String
  active_launches : List (String × LaunchEntry)
deriving DecidableEq, Repr

/-- Python exceptions this model distinguishes. -/
inductive PyExc
  | nameError (n : String)
deriving DecidableEq, Repr

/-- `handle_launch_request` from LaunchCoordinatorAgent.py, modulo the
strategy/risk computations (steps 1 and 2), which bind locals and cannot
raise past their own handlers.  Step 3 sends the strategy response; the
final statement then stores the pending launch under `str(msg.msg_id)`,
so it first resolves the name `msg` — which is bound neither locally nor
at module level — and raises `NameError`, leaving `active_launches`
untouched. -/
def handle_launch_request (now : ℚ) (st : CoordState) : CoordState × Option PyExc :=
  let st1 : CoordState := { st with sent := st.sent ++ ["strategy_message"] }
  match resolveAtLaunchRequest "msg" with
  | some v =>
    ({ st1 with active_launches :=
        st1.active_launches ++ [(v, { status := "awaiting_approval", timestamp := now })] },
     none)
  | none => (st1, some (PyExc.nameError "msg"))

/-! ## ApprovalWorkflow

Modelled from the spec: the pending-approval state machine of §4.5 is not
implemented in the source — `handle_launch_request` only tags a stored
launch with the literal status `"awaiting_approval"`, and no handler for an
approve or reject reply exists in LaunchCoordinatorAgent.py — so the
transitions below follow the spec text: `propose` creates AWAITING;
`approve`/`reject` are only valid from AWAITING and otherwise are a no-op
reported as "already resolved"; a tick past the deadline while AWAITING
forces EXPIRED; terminal states are immutable. -/

/-- Modelled from the spec: the four approval statuses of §3 / §4.5. -/
inductive ApprovalStatus
  | AWAITING
  | APPROVED
  | REJECTED
  | EXPIRED
deriving DecidableEq, Repr

/-- Modelled from the spec: a PendingApproval record (§3), restricted to
the fields the transitions read. -/
structure PendingApproval where
  status : ApprovalStatus
  created_at : ℚ
  deadline : ℚ
deriving DecidableEq, Repr

/-- Modelled from the spec: how a transition attempt is reported — either
it happened, or it was a no-op on an already-resolved workflow. -/
inductive ApprovalOutcome
  | transitioned
  | alreadyResolved
deriving DecidableEq, Repr

namespace ApprovalWorkflow

/-- Modelled from the spec: `propose(decision, deadline)` creates an
AWAITING workflow. -/
def propose (now deadline : ℚ) : PendingApproval :=
  { status := ApprovalStatus.AWAITING, created_at := now, deadline := deadline }

/-- Modelled from the spec: `approve()` is only valid from AWAITING,
otherwise a no-op reported as already resolved. -/
def approve (p : PendingApproval) : PendingApproval × ApprovalOutcome :=
  match p.status with
  | ApprovalStatus.AWAITING =>
    ({ p with status := ApprovalStatus.APPROVED }, ApprovalOutcome.transitioned)
  | _ => (p, ApprovalOutcome.alreadyResolved)

/-- Modelled from the spec: `reject()` is only valid from AWAITING,
otherwise a no-op reported as already resolved. -/
def reject (p : PendingApproval) : PendingApproval × ApprovalOutcome :=
  match p.status with
  | ApprovalStatus.AWAITING =>
    ({ p with status := ApprovalStatus.REJECTED }, ApprovalOutcome.transitioned)
  | _ => (p, ApprovalOutcome.alreadyResolved)

/-- Modelled from the spec: a scheduler tick past the deadline while still
AWAITING forces EXPIRED (the Bool reports whether a notification is
emitted). -/
def expireTick (now : ℚ) (p : PendingApproval) : PendingApproval × Bool :=
  match p.status with
  | ApprovalStatus.AWAITING =>
    if p.deadline < now then ({ p with status := ApprovalStatus.EXPIRED }, true)
    else (p, false)
  | _ => (p, false)

end ApprovalWorkflow

/-! ## Theorems -/

/-- Modelled from the claim under comparison: the fixed risk bands the spec
states (score < 4 ⇒ HIGH, < 7 ⇒ MEDIUM, else LOW), to be compared with the
branching the code performs. -/
def riskBandSpec (s : ℚ) : String :=
  if s < 4 then "HIGH" else if s < 7 then "MEDIUM" else "LOW"

/-- The input of claim C2: liquidity lock 10 days, team unverified, no
vesting, contract unverified, top holder 35%, graduation time `g`. -/
def c2Input (g : Option ℚ) : OnChainData :=
  { liquidity_lock_duration := some 10
    team_verified := some false
    vesting_enabled := some false
    contract_verified := some false
    top_holder_percentage := some 35
    graduation_time_hours := g }

/-- C2: on the input with liquidity lock 10 days, team unverified, vesting
absent, contract unverified and 35% top-holder concentration, with
graduation time absent or at least 24 hours, the five deductions
2.0 + 1.5 + 1.0 + 1.0 + 2.0 = 7.5 all fire off the base 7.5, so
`analyze_token_risk_with_metta` returns the clamped score 0 and level
HIGH. -/
theorem c2_full_deductions_clamp_to_zero (g : Option ℚ)
    (h : g = none ∨ ∃ x, g = some x ∧ 24 ≤ x) :
    analyzeTokenRiskScoreRaw (c2Input g) = 15/2 - (2 + 3/2 + 1 + 1 + 2)
    ∧ (analyzeTokenRiskWithMetta true (c2Input g)).risk_score = 0
    ∧ (analyzeTokenRiskWithMetta true (c2Input g)).risk_level = "HIGH"
    ∧ (analyzeTokenRiskWithMetta true (c2Input g)).red_flags.length = 5 := by
  have hg : ¬ (Option.getD g 1000 < 24) := by
    rcases h with h | ⟨x, rfl, hx⟩
    · subst h; norm_num
    · simpa using not_lt.mpr hx
  refine ⟨?_, ?_, ?_, ?_⟩ <;>
    simp [analyzeTokenRiskWithMetta, analyzeTokenRiskScoreRaw,
      analyzeTokenRiskRedFlags, c2Input, holderConcentrationThreshold, hg] <;>
    norm_num

/-- Witness for C2 at the concrete input with graduation time absent. -/
theorem c2_full_deductions_clamp_to_zero_witness :
    ((none : Option ℚ) = none ∨ ∃ x, (none : Option ℚ) = some x ∧ 24 ≤ x)
    ∧ (analyzeTokenRiskScoreRaw (c2Input none) = 15/2 - (2 + 3/2 + 1 + 1 + 2)
      ∧ (analyzeTokenRiskWithMetta true (c2Input none)).risk_score = 0
      ∧ (analyzeTokenRiskWithMetta true (c2Input none)).risk_level = "HIGH"
      ∧ (analyzeTokenRiskWithMetta true (c2Input none)).red_flags.length = 5) :=
  ⟨Or.inl rfl, c2_full_deductions_clamp_to_zero none (Or.inl rfl)⟩

/-- C3: when the MeTTa oracle call raises, neither decision function
propagates the error: `analyze_token_risk_with_metta` returns the complete
fallback DecisionResult (score, level, flags, confidence, recommendation)
and `analyze_rebalancing_opportunity_with_metta` returns
`should_rebalance = False`. -/
theorem c3_oracle_failure_not_propagated (d : OnChainData) (e : String)
    (liquidity_amount : ℚ) (last_rebalance_days_ago : Option ℤ) :
    analyzeTokenRiskWithMetta false d
      = { risk_score := 5
          risk_level := "MEDIUM"
          red_flags := ["Unable to complete analysis"]
          confidence := 1/2
          fraud_probability := 1/2
          recommendation := "Proceed with caution - analysis incomplete" }
    ∧ (analyzeRebalancingOpportunityWithMetta false e liquidity_amount
        last_rebalance_days_ago).should_rebalance = false := by
  constructor
  · rfl
  · cases last_rebalance_days_ago <;> rfl

/-- C4: `should_rebalance` is the exact conjunction of the three
conditions — APR improvement above 5.0, oracle confidence above 0.80, and
at least one day since the last rebalance — and the full analysis reports
a rebalance only when the oracle call succeeded, the last-rebalance time
was set, and that conjunction holds for the parsed range; violating any
conjunct yields no action. -/
theorem c4_rebalance_requires_all_three (r : OptimalRange) (days : ℤ)
    (ok : Bool) (e : String) (liquidity_amount : ℚ) (lr : Option ℤ) :
    (shouldRebalance r days = true
      ↔ (5 < r.expected_apr_improvement ∧ 4/5 < r.confidence ∧ 1 ≤ days))
    ∧ (analyzeRebalancingOpportunityWithMetta ok e liquidity_amount lr).should_rebalance
      = (ok && Option.elim lr false (shouldRebalance optimalRangeDemo)) := by
  constructor
  · simp [shouldRebalance, and_assoc]
  · cases ok <;> cases lr <;>
      simp [analyzeRebalancingOpportunityWithMetta, Option.elim]

/-- The input refuting claim C1 on the agent scorer: only the vesting
(1.0) and concentration (2.0) deductions fire, so the running score is
4.5. -/
def c1Input : OnChainData :=
  { liquidity_lock_duration := some 90
    team_verified := some true
    vesting_enabled := some false
    contract_verified := some true
    top_holder_percentage := some 35
    graduation_time_hours := some 72 }

/-- C1 fails on `analyze_token_risk_with_metta`: at `c1Input` the returned
score is 4.5 and the returned level is HIGH, while the claimed bands
(< 4 HIGH, < 7 MEDIUM) put 4.5 in MEDIUM — the agent brands scores below 5
as HIGH, not scores below 4. -/
theorem c1_band_counterexample :
    (analyzeTokenRiskWithMetta true c1Input).risk_score = 9/2
    ∧ (analyzeTokenRiskWithMetta true c1Input).risk_level = "HIGH"
    ∧ riskBandSpec (analyzeTokenRiskWithMetta true c1Input).risk_score = "MEDIUM"
    ∧ (analyzeTokenRiskWithMetta true c1Input).risk_level
      ≠ riskBandSpec (analyzeTokenRiskWithMetta true c1Input).risk_score := by
  have hs : (analyzeTokenRiskWithMetta true c1Input).risk_score = 9/2 := by
    norm_num [analyzeTokenRiskWithMetta, analyzeTokenRiskScoreRaw, c1Input,
      holderConcentrationThreshold]
  have hl : (analyzeTokenRiskWithMetta true c1Input).risk_level = "HIGH" := by
    norm_num [analyzeTokenRiskWithMetta, analyzeTokenRiskScoreRaw, c1Input,
      holderConcentrationThreshold]
  have hb : riskBandSpec (9/2 : ℚ) = "MEDIUM" := by norm_num [riskBandSpec]
  refine ⟨hs, hl, by rw [hs]; exact hb, ?_⟩
  rw [hs, hl, hb]
  decide

/-- C1 (amended): each scorer derives its level deterministically from its
returned score via fixed bands, but the bands differ: `predict` uses
< 4 HIGH / < 7 MEDIUM / else LOW as the claim states, while
`analyze_token_risk_with_metta` uses < 5 HIGH / < 7 MEDIUM / else LOW. -/
theorem c1_level_function_of_score (d : OnChainData) (td : TokenData) :
    (analyzeTokenRiskWithMetta true d).risk_level
      = (if (analyzeTokenRiskWithMetta true d).risk_score < 5 then "HIGH"
         else if (analyzeTokenRiskWithMetta true d).risk_score < 7 then "MEDIUM"
         else "LOW")
    ∧ (RiskScoringModel.predict td).risk_level
      = riskBandSpec (RiskScoringModel.predict td).risk_score := by
  constructor
  · rcases le_total (analyzeTokenRiskScoreRaw d) 0 with h | h
    · have h5 : analyzeTokenRiskScoreRaw d < 5 := lt_of_le_of_lt h (by norm_num)
      have hscore : (analyzeTokenRiskWithMetta true d).risk_score = 0 := by
        simp [analyzeTokenRiskWithMetta, max_eq_left h]
      have hlevel : (analyzeTokenRiskWithMetta true d).risk_level = "HIGH" := by
        simp [analyzeTokenRiskWithMetta, if_pos h5]
      rw [hscore, hlevel]
      norm_num
    · have hscore : (analyzeTokenRiskWithMetta true d).risk_score
          = analyzeTokenRiskScoreRaw d := by
        simp [analyzeTokenRiskWithMetta, max_eq_right h]
      rw [hscore]
      simp [analyzeTokenRiskWithMetta]
  · rfl

/-- The running agent score never exceeds the base 7.5: every deduction is
nonnegative. -/
lemma analyzeTokenRiskScoreRaw_le (d : OnChainData) :
    analyzeTokenRiskScoreRaw d ≤ 15/2 := by
  unfold analyzeTokenRiskScoreRaw
  split_ifs <;> norm_num

/-- C5: for every input — any combination of present, absent or extreme
field values — the risk score returned by `analyze_token_risk_with_metta`
(in both the success and the fallback branch) and by
`RiskScoringModel.predict` lies in `[0, 10]`. -/
theorem c5_risk_score_in_range (ok : Bool) (d : OnChainData) (td : TokenData) :
    (0 ≤ (analyzeTokenRiskWithMetta ok d).risk_score
      ∧ (analyzeTokenRiskWithMetta ok d).risk_score ≤ 10)
    ∧ (0 ≤ (RiskScoringModel.predict td).risk_score
      ∧ (RiskScoringModel.predict td).risk_score ≤ 10) := by
  refine ⟨?_, le_max_left 0 _, ?_⟩
  · cases ok with
    | false => norm_num [analyzeTokenRiskWithMetta, analyzeTokenRiskFallback]
    | true =>
      constructor
      · exact le_max_left 0 _
      · exact max_le (by norm_num)
          (le_trans (analyzeTokenRiskScoreRaw_le d) (by norm_num))
  · exact max_le (by norm_num) (le_trans (min_le_left _ _) (by norm_num))

/-- The input refuting claim C6: every key absent, so the success-branch
confidence is the floor 0.1, below the fallback confidence 0.5. -/
def emptyOnChainData : OnChainData :=
  { liquidity_lock_duration := none
    team_verified := none
    vesting_enabled := none
    contract_verified := none
    top_holder_percentage := none
    graduation_time_hours := none }

/-- C6 fails as stated: with every input key absent, the successful
evaluation has confidence 0.1 while the fallback (oracle failure) has
confidence 0.5, so the fallback confidence is not strictly lower. -/
theorem c6_confidence_counterexample :
    (analyzeTokenRiskWithMetta true emptyOnChainData).confidence = 1/10
    ∧ (analyzeTokenRiskWithMetta false emptyOnChainData).confidence = 1/2
    ∧ ¬ ((analyzeTokenRiskWithMetta false emptyOnChainData).confidence
        < (analyzeTokenRiskWithMetta true emptyOnChainData).confidence) := by
  refine ⟨?_, rfl, ?_⟩ <;>
    norm_num [analyzeTokenRiskWithMetta, analyzeTokenRiskFallback,
      analyzeTokenRiskConfidence, dataCompletenessCount, emptyOnChainData]

/-- C6 (amended): when at least three of the five completeness keys are
present, the oracle-failure evaluation has confidence (0.5) strictly lower
than the successful evaluation of the same input (at least 0.64), and the
failure result carries the degraded-analysis flag. -/
theorem c6_degraded_confidence_and_flag (d : OnChainData)
    (h : 3 ≤ dataCompletenessCount d) :
    (analyzeTokenRiskWithMetta false d).confidence
      < (analyzeTokenRiskWithMetta true d).confidence
    ∧ "Unable to complete analysis" ∈ (analyzeTokenRiskWithMetta false d).red_flags := by
  constructor
  · have hc : (3 : ℚ) ≤ (dataCompletenessCount d : ℚ) := by exact_mod_cast h
    have htrue : (analyzeTokenRiskWithMetta true d).confidence
        = (dataCompletenessCount d : ℚ) / 5 * (9/10) + 1/10 := by
      simp [analyzeTokenRiskWithMetta, analyzeTokenRiskConfidence]
    have hfalse : (analyzeTokenRiskWithMetta false d).confidence = 1/2 := rfl
    rw [htrue, hfalse]
    linarith
  · simp [analyzeTokenRiskWithMetta, analyzeTokenRiskFallback]

/-- An input with every key present, witnessing the amended C6. -/
def fullOnChainData : OnChainData :=
  { liquidity_lock_duration := some 90
    team_verified := some true
    vesting_enabled := some true
    contract_verified := some true
    top_holder_percentage := some (25/2)
    graduation_time_hours := some 72 }

/-- Witness for the amended C6 at an input with all five keys present. -/
theorem c6_degraded_confidence_and_flag_witness :
    3 ≤ dataCompletenessCount fullOnChainData
    ∧ ((analyzeTokenRiskWithMetta false fullOnChainData).confidence
        < (analyzeTokenRiskWithMetta true fullOnChainData).confidence
      ∧ "Unable to complete analysis"
        ∈ (analyzeTokenRiskWithMetta false fullOnChainData).red_flags) :=
  ⟨by decide, c6_degraded_confidence_and_flag fullOnChainData (by decide)⟩

/-- A position entry whose `last_check` is the current instant, refuting
the skip clause of claim C7. -/
def justCheckedPosition : PositionData :=
  { pool_address := "pool", token_a := "A", token_b := "B",
    added_at := 0, last_check := some 100 }

/-- C7 fails as stated: a position checked at the current instant (well
inside any positive cadence, here 60) is still re-evaluated by the next
`monitor_positions` tick — the loop performs no cadence-based skipping —
while the claimed scheduler contract would skip it. -/
theorem c7_no_skip_counterexample :
    (monitorPositionsTick 100 [("p1", justCheckedPosition)]).1 = ["p1"]
    ∧ monitorTickSpec 100 60 [("p1", justCheckedPosition)] = []
    ∧ (monitorPositionsTick 100 [("p1", justCheckedPosition)]).1
      ≠ monitorTickSpec 100 60 [("p1", justCheckedPosition)] := by
  refine ⟨rfl, ?_, ?_⟩
  · norm_num [monitorTickSpec, justCheckedPosition, List.filter]
  · intro hcontra
    rw [show (monitorPositionsTick 100 [("p1", justCheckedPosition)]).1 = ["p1"] from rfl]
      at hcontra
    rw [show monitorTickSpec 100 60 [("p1", justCheckedPosition)] = [] from by
      norm_num [monitorTickSpec, justCheckedPosition, List.filter]] at hcontra
    exact List.cons_ne_nil _ _ hcontra

/-- C7 (amended): each scheduler tick of `monitor_positions` and
`monitor_active_tokens` re-evaluates exactly the currently registered
entities, one each, in insertion order and (for distinct ids) without
duplicates, unconditionally: no cadence-based skipping exists, and
`last_check` is rewritten to the tick time for every position. -/
theorem c7_tick_evaluates_every_entity (now : ℚ)
    (monitored : List (String × PositionData))
    (tokens : List (String × TokenMonitorData))
    (h : (monitored.map fun p => p.1).Nodup) :
    (monitorPositionsTick now monitored).1 = monitored.map (fun p => p.1)
    ∧ (monitorPositionsTick now monitored).1.Nodup
    ∧ (monitorPositionsTick now monitored).2
      = monitored.map (fun p => (p.1, { p.2 with last_check := some now }))
    ∧ monitorActiveTokensEvaluated tokens = tokens.map (fun t => t.1) := by
  exact ⟨rfl, h, rfl, rfl⟩

/-- Witness for the amended C7 on a two-position store. -/
theorem c7_tick_evaluates_every_entity_witness :
    (([("p1", justCheckedPosition), ("p2", justCheckedPosition)].map
        fun p => p.1).Nodup : Prop)
    ∧ ((monitorPositionsTick 0
          [("p1", justCheckedPosition), ("p2", justCheckedPosition)]).1
        = [("p1", justCheckedPosition), ("p2", justCheckedPosition)].map (fun p => p.1)
      ∧ (monitorPositionsTick 0
          [("p1", justCheckedPosition), ("p2", justCheckedPosition)]).1.Nodup
      ∧ (monitorPositionsTick 0
          [("p1", justCheckedPosition), ("p2", justCheckedPosition)]).2
        = [("p1", justCheckedPosition), ("p2", justCheckedPosition)].map
            (fun p => (p.1, { p.2 with last_check := some 0 }))
      ∧ monitorActiveTokensEvaluated [("t1", { added_at := 0 })]
        = [("t1", ({ added_at := 0 } : TokenMonitorData))].map (fun t => t.1)) :=
  ⟨by decide, c7_tick_evaluates_every_entity 0
    [("p1", justCheckedPosition), ("p2", justCheckedPosition)]
    [("t1", { added_at := 0 })] (by decide)⟩

/-- C8: once the approval workflow leaves AWAITING it never moves again:
propose-then-approve yields APPROVED; a subsequent reject on the same
workflow is a no-op reported as "already resolved"; and on any workflow
whose status is terminal, approve and reject leave the record unchanged
and report "already resolved". -/
theorem c8_terminal_status_immutable (now deadline : ℚ) :
    (ApprovalWorkflow.approve (ApprovalWorkflow.propose now deadline)).1.status
      = ApprovalStatus.APPROVED
    ∧ ApprovalWorkflow.reject
        (ApprovalWorkflow.approve (ApprovalWorkflow.propose now deadline)).1
      = ((ApprovalWorkflow.approve (ApprovalWorkflow.propose now deadline)).1,
         ApprovalOutcome.alreadyResolved)
    ∧ ∀ p : PendingApproval, p.status ≠ ApprovalStatus.AWAITING →
        ApprovalWorkflow.approve p = (p, ApprovalOutcome.alreadyResolved)
        ∧ ApprovalWorkflow.reject p = (p, ApprovalOutcome.alreadyResolved) := by
  refine ⟨rfl, rfl, fun p hp => ⟨?_, ?_⟩⟩ <;>
    · cases hstatus : p.status <;>
        first
        | exact absurd hstatus hp
        | simp [ApprovalWorkflow.approve, ApprovalWorkflow.reject, hstatus]

/-- Witness for C8: a workflow already in REJECTED status is left
unchanged by approve. -/
theorem c8_terminal_status_immutable_witness :
    ((ApprovalWorkflow.approve (ApprovalWorkflow.propose 0 1)).1.status
        = ApprovalStatus.APPROVED
      ∧ ApprovalWorkflow.reject (ApprovalWorkflow.approve (ApprovalWorkflow.propose 0 1)).1
        = ((ApprovalWorkflow.approve (ApprovalWorkflow.propose 0 1)).1,
           ApprovalOutcome.alreadyResolved))
    ∧ ({ status := ApprovalStatus.REJECTED, created_at := 0, deadline := 1
          : PendingApproval }.status ≠ ApprovalStatus.AWAITING)
    ∧ ApprovalWorkflow.approve
        { status := ApprovalStatus.REJECTED, created_at := 0, deadline := 1 }
      = ({ status := ApprovalStatus.REJECTED, created_at := 0, deadline := 1 },
         ApprovalOutcome.alreadyResolved) :=
  ⟨⟨(c8_terminal_status_immutable 0 1).1, (c8_terminal_status_immutable 0 1).2.1⟩,
   by decide,
   ((c8_terminal_status_immutable 0 1).2.2
     { status := ApprovalStatus.REJECTED, created_at := 0, deadline := 1 }
     (by decide)).1⟩

/-- C9: `handle_launch_request` resolves the unbound name `msg` after
sending the strategy response, so every invocation raises NameError and no
entry is ever added to `agent_state["active_launches"]` by this
handler. -/
theorem c9_launch_request_name_error (now : ℚ) (st : CoordState) :
    nameInScopeAtLaunchRequest "msg" = false
    ∧ (handle_launch_request now st).2 = some (PyExc.nameError "msg")
    ∧ (handle_launch_request now st).1.sent = st.sent ++ ["strategy_message"]
    ∧ (handle_launch_request now st).1.active_launches = st.active_launches := by
  have hscope : nameInScopeAtLaunchRequest "msg" = false := by decide
  have hres : resolveAtLaunchRequest "msg" = none := by
    simp [resolveAtLaunchRequest, hscope]
  refine ⟨hscope, ?_, ?_, ?_⟩ <;> simp [handle_launch_request, hres]

/-- Every `some` result of `detect_rug_pull_pattern` has
`rug_pull_detected = false`: the success branch computes
`rapid_sell_off and volume_spike` with `volume_spike` the constant
`False`, and the short-history and exception branches return `False`
directly. -/
lemma detect_rug_pull_detected_false (ok : Bool) (price_history : List ℚ)
    (r : RugPullResult) (h : detect_rug_pull_pattern ok price_history = some r) :
    r.rug_pull_detected = false := by
  by_cases h1 : price_history.length < 5
  · simp only [detect_rug_pull_pattern, if_pos h1, Option.some.injEq] at h
    subst h
    rfl
  · by_cases h2 : (price_history.drop (price_history.length - 10)).headD 0 = 0
    · simp only [detect_rug_pull_pattern, if_neg h1, if_pos h2] at h
      exact Option.noConfusion h
    · cases ok with
      | true =>
        simp only [detect_rug_pull_pattern, if_neg h1, if_neg h2, if_true,
          Bool.and_false, Option.some.injEq, reduceIte] at h
        subst h
        rfl
      | false =>
        simp only [detect_rug_pull_pattern, if_neg h1, if_neg h2,
          Option.some.injEq, Bool.false_eq_true, reduceIte] at h
        subst h
        rfl

/-- C10: `detect_rug_pull_pattern` never reports a rug pull (its
volume-spike indicator is the constant `False` and detection requires it);
consequently the fraud-pattern counter is never incremented and
`monitor_active_tokens` never issues a rug-pull alert. -/
theorem c10_rug_pull_never_detected (ok : Bool) (price_history : List ℚ)
    (tokens : List (String × TokenMonitorData)) :
    ((detect_rug_pull_pattern ok price_history).getD
        { rug_pull_detected := false, confidence := 0,
          indicators := none, action := none }).rug_pull_detected = false
    ∧ detectRugPullFraudIncrement ok price_history = 0
    ∧ monitorActiveTokensRugAlerts ok tokens = [] := by
  refine ⟨?_, ?_, ?_⟩
  · cases hd : detect_rug_pull_pattern ok price_history with
    | none => rfl
    | some r => simpa using detect_rug_pull_detected_false ok price_history r hd
  · unfold detectRugPullFraudIncrement
    cases hd : detect_rug_pull_pattern ok price_history with
    | none => rfl
    | some r => simp [detect_rug_pull_detected_false ok price_history r hd]
  · unfold monitorActiveTokensRugAlerts
    have hpred : (fun (_ : String × TokenMonitorData) =>
        match detect_rug_pull_pattern ok mockPriceHistory with
        | some r => r.rug_pull_detected
        | none => false) = fun _ => false := by
      funext t
      cases hd : detect_rug_pull_pattern ok mockPriceHistory with
      | none => rfl
      | some r => simpa using detect_rug_pull_detected_false ok mockPriceHistory r hd
    rw [hpred]
    simp
